import Mathlib

/-!
Shallow embedding of `src/main.py` (Plant AI Guardian Backend).

The service is a proxy: each handler makes one outbound HTTP call, maps
the JSON body onto a fixed pydantic schema, and substitutes hardcoded
fallback data on any failure.  We embed each helper as a total Lean
function over an explicit description of the upstream outcome:

* network errors, non-success statuses, JSON decode errors, and any
  exception raised inside a helper's `try` block (all caught by that
  helper's `except Exception`) are one constructor, `failure`;
* a decoded body that is a Python list is `seqResponse items`;
* a decoded body that is not a list is `nonSeqResponse`.

The three lookup helpers construct their pydantic items inside their
`try` blocks, so they are total.  `external_predict` is not: its
`PredictResponse(...)` construction at line 82 sits outside the `try`
(whose `except` ends at line 75), so a successful response whose
`disease` key holds `null` raises an uncaught `ValidationError` there.
We embed `external_predict` (and `analyze`, through which that error
propagates) as `Except`-valued functions.

Python floats are modelled as `ℚ` (the literals and comparisons in the
source are exact at these decimal values), `dict.get k` as
`Option` (`none` covers both an absent key and an explicit `null`),
and Python string values as `String`.
-/

/-- Upstream outcome of one of the `requests.get` lookups in
`external_treatments` / `external_products` / `external_tutorials`:
the call raised (or a mapped element raised while being converted),
or it returned a JSON list, or it returned non-list JSON. -/
inductive LookupOutcome (α : Type) where
  | failure
  | seqResponse (items : List α)
  | nonSeqResponse
deriving DecidableEq, Repr

/-- `class PredictResponse(BaseModel)` of `src/main.py`. -/
structure PredictResponse where
  disease : String
  confidence : ℚ
  organ : Option String
  severity : Option String
deriving DecidableEq, Repr

/-- `class TreatmentItem(BaseModel)` of `src/main.py`. -/
structure TreatmentItem where
  symptoms : Option String
  organic : Option String
  chemical : Option String
  prevention : Option String
deriving DecidableEq, Repr

/-- `class ProductItem(BaseModel)` of `src/main.py`. -/
structure ProductItem where
  name : String
  price : Option ℚ
  url : Option String
  image : Option String
deriving DecidableEq, Repr

/-- `class TutorialItem(BaseModel)` of `src/main.py`. -/
structure TutorialItem where
  title : String
  videoId : Option String
  thumbnail : Option String
  url : Option String
deriving DecidableEq, Repr

/-- `class AnalyzeResponse(BaseModel)` of `src/main.py`. -/
structure AnalyzeResponse where
  result : PredictResponse
  treatments : List TreatmentItem
  products : List ProductItem
  tutorials : List TutorialItem
deriving DecidableEq, Repr

/-- The value of the `disease` key as `data.get("disease", "Unknown")`
sees it when the key is present: a text value, or `null`.  A text value
passes the `disease: str` validation of `PredictResponse`; `null` is
rejected by it (in every pydantic major version).  Other JSON types are
omitted from the model: their validation outcome depends on the pydantic
version, and no claim turns on them. -/
inductive PyValue where
  | str (s : String)
  | null
deriving DecidableEq, Repr

/-- The JSON object a successful `POST {base}/predict` decodes to, as far
as `external_predict` reads it: `data.get("disease", "Unknown")` and
`float(data.get("confidence", 0.5))`.  For `disease`, `none` means the
key is absent (the default `"Unknown"` then applies); a present key is a
`PyValue`.  For `confidence`, `none` means the key is absent (default
`0.5`); a present value whose `float(...)` raises does so inside the
`try` (line 74), is caught at line 75, and is therefore part of
`PredictOutcome.failure`.  The `disease: str` validation, by contrast,
happens at the `PredictResponse(...)` construction on line 82 — outside
the `try`, whose `except` ends at line 75 — so a present-`null` disease
raises an uncaught `ValidationError`; `external_predict` models that as
an `Except.error`.  The body may also carry a `severity` key; the code
never reads it, which we keep as an ignored field so that
non-pass-through is expressible. -/
structure PredictPayload where
  disease : Option PyValue
  confidence : Option ℚ
  severityField : Option String
deriving DecidableEq, Repr

/-- Outcome of the upstream predict call: any exception inside the `try`
of lines 69-74 (network error, `raise_for_status`, JSON decode, `float`
failure), or a decoded object. -/
inductive PredictOutcome where
  | failure
  | success (payload : PredictPayload)
deriving DecidableEq, Repr

/-- An exception escaping a handler uncaught; here only the pydantic
`ValidationError` raised by `PredictResponse(disease=None, ...)` at
line 82 of `src/main.py`. -/
inductive PyError where
  | validationError
deriving DecidableEq, Repr

/-- The severity heuristic of `src/main.py` line 81:
`"high" if confidence > 0.85 else ("medium" if confidence > 0.6 else "low")`. -/
def severity_of_confidence (confidence : ℚ) : String :=
  if confidence > 85/100 then "high"
  else if confidence > 6/10 then "medium"
  else "low"

/-- `external_predict` of `src/main.py` lines 67-82.  The `image_base64`
argument only feeds the outbound request body; the upstream outcome is
passed explicitly.  Lines 70-74 run inside the `try`: on any exception
there, lines 77-78 substitute the fallback pair.  The
`PredictResponse(...)` construction on line 82 is outside the `try`, so
a `disease` value that is `null` makes it raise an uncaught
`ValidationError`, modelled as `Except.error`. -/
def external_predict (image_base64 : String) (o : PredictOutcome) :
    Except PyError PredictResponse :=
  let pair : PyValue × ℚ :=
    match o with
    | .failure => (PyValue.str "Leaf Blight", 87/100)
    | .success payload =>
        (payload.disease.getD (PyValue.str "Unknown"),
         payload.confidence.getD (5/10))
  let confidence := pair.2
  let organ := "leaf"
  let severity := severity_of_confidence confidence
  -- line 82: `disease: str` validation; text passes, `null` raises.
  match pair.1 with
  | .str disease =>
      .ok { disease := disease, confidence := confidence,
            organ := some organ, severity := some severity }
  | .null => .error PyError.validationError

/-- Python's `a or b` for the values `dict.get` can return here:
`None` and strings.  `None` and the empty string are falsy, every
other string is truthy.  Used by `external_treatments` line 98:
`it.get("prevention") or it.get("preventive")`. -/
def pyOr (a b : Option String) : Option String :=
  match a with
  | none => b
  | some s => if s = "" then b else some s

/-- One element of a JSON-list body of `GET {base}/treatments`, as far
as the code reads it; each field is the value of the corresponding
`it.get(...)`, `none` standing for an absent key or `null`. -/
structure TreatmentElem where
  symptoms : Option String
  organic : Option String
  chemical : Option String
  prevention : Option String
  preventive : Option String
deriving DecidableEq, Repr

/-- The mapping of lines 94-99 of `src/main.py` applied to one element. -/
def treatmentOfElem (it : TreatmentElem) : TreatmentItem :=
  { symptoms := it.symptoms, organic := it.organic, chemical := it.chemical,
    prevention := pyOr it.prevention it.preventive }

/-- The single generic leaf-spot record built identically at lines
101-104 (non-list body) and 107-110 (exception) of `src/main.py`. -/
def fallbackTreatment : TreatmentItem :=
  { symptoms := some "Spots and lesions on leaves",
    organic := some "Neem oil spray weekly",
    chemical := some "Copper-based fungicide as directed",
    prevention := some "Ensure proper spacing and airflow" }

/-- `external_treatments` of `src/main.py` lines 85-110.  The `disease`
argument only parameterizes the outbound request. -/
def external_treatments (disease : String)
    (o : LookupOutcome TreatmentElem) : List TreatmentItem :=
  match o with
  | .seqResponse items => items.map treatmentOfElem
  | .nonSeqResponse => [fallbackTreatment]
  | .failure => [fallbackTreatment]

/-- The `price` value of one element of a products response, as seen by
lines 122-126 of `src/main.py`: `it.get("price")` is `None` (absent or
`null`), or `float` of it succeeds with some number, or `float` raises
(the inner `except` then sets the price to `None`). -/
inductive PriceField where
  | absent
  | numeric (q : ℚ)
  | nonNumeric
deriving DecidableEq, Repr

/-- `price = float(it.get("price")) if it.get("price") is not None else
None`, with the inner `try/except` mapping a `float` failure to `None`. -/
def parsePrice : PriceField → Option ℚ
  | .absent => none
  | .numeric q => some q
  | .nonNumeric => none

/-- One element of a JSON-list body of `GET {base}/products`, as far as
the code reads it.  `name = none` means the `name` key is absent, so
`it.get("name", "Product")` yields the default.  (A present-but-`null`
name would make the `ProductItem` constructor raise, which the outer
`except` turns into the whole-response fallback; that path is
`LookupOutcome.failure`.) -/
structure ProductElem where
  name : Option String
  price : PriceField
  url : Option String
  image : Option String
deriving DecidableEq, Repr

/-- The mapping of lines 121-127 of `src/main.py` applied to one element. -/
def productOfElem (it : ProductElem) : ProductItem :=
  { name := it.name.getD "Product", price := parsePrice it.price,
    url := it.url, image := it.image }

/-- The two-item fallback of lines 131-134 of `src/main.py`. -/
def fallbackProducts : List ProductItem :=
  [ { name := "Bio Neem Oil", price := some (1299/100),
      url := some "https://example.com/neem",
      image := some "https://images.unsplash.com/photo-1524594081293-190a2fe0baae?q=80&w=400" },
    { name := "Copper Fungicide", price := some (1849/100),
      url := some "https://example.com/copper",
      image := some "https://images.unsplash.com/photo-1542291026-7eec264c27ff?q=80&w=400" } ]

/-- `external_products` of `src/main.py` lines 113-134.  The `return out`
sits inside the `isinstance(items, list)` branch, so a non-list body
falls through to the same two-item fallback as an exception. -/
def external_products (disease : String)
    (o : LookupOutcome ProductElem) : List ProductItem :=
  match o with
  | .seqResponse items => items.map productOfElem
  | .nonSeqResponse => fallbackProducts
  | .failure => fallbackProducts

/-- One element of a JSON-list body of `GET {base}/tutorials`, as far as
the code reads it.  `title = none` means the `title` key is absent
(default `"Tutorial"`). -/
structure TutorialElem where
  title : Option String
  videoId : Option String
  thumbnail : Option String
  url : Option String
deriving DecidableEq, Repr

/-- The mapping of line 146 of `src/main.py` applied to one element. -/
def tutorialOfElem (it : TutorialElem) : TutorialItem :=
  { title := it.title.getD "Tutorial", videoId := it.videoId,
    thumbnail := it.thumbnail, url := it.url }

/-- The mock tutorials of lines 151-154 of `src/main.py`; the titles are
templated with the disease name, the other fields are literals. -/
def fallbackTutorials (disease : String) : List TutorialItem :=
  [ { title := "How to treat " ++ disease,
      videoId := some "dQw4w9WgXcQ",
      thumbnail := some "https://img.youtube.com/vi/dQw4w9WgXcQ/hqdefault.jpg",
      url := some "https://www.youtube.com/watch?v=dQw4w9WgXcQ" },
    { title := "Preventing " ++ disease ++ " in your garden",
      videoId := some "9bZkp7q19f0",
      thumbnail := some "https://img.youtube.com/vi/9bZkp7q19f0/hqdefault.jpg",
      url := some "https://www.youtube.com/watch?v=9bZkp7q19f0" } ]

/-- `external_tutorials` of `src/main.py` lines 137-154.  As in
`external_products`, `return out` is inside the `isinstance` branch. -/
def external_tutorials (disease : String)
    (o : LookupOutcome TutorialElem) : List TutorialItem :=
  match o with
  | .seqResponse items => items.map tutorialOfElem
  | .nonSeqResponse => fallbackTutorials disease
  | .failure => fallbackTutorials disease

/-- Outcome of the best-effort `create_document` insert in `analyze`
(lines 191-200 of `src/main.py`): no store configured (`db is None`),
the insert raised (swallowed by `except: pass`), or it succeeded. -/
inductive StoreWriteOutcome where
  | noStore
  | writeError
  | ok
deriving DecidableEq, Repr

/-- The upstream world one `analyze` request sees: one outcome per
outbound call plus the storage outcome. -/
structure Upstreams where
  predictO : PredictOutcome
  treatO : LookupOutcome TreatmentElem
  prodO : LookupOutcome ProductElem
  tutO : LookupOutcome TutorialElem
  storeO : StoreWriteOutcome
deriving DecidableEq, Repr

/-- `analyze` of `src/main.py` lines 183-202: predict, then the three
lookups keyed on the predicted disease, then a best-effort store whose
failure is swallowed, then the unconditional response.  `analyze` has
no `try` of its own around line 185, so an uncaught `ValidationError`
escaping `external_predict` propagates out of `analyze` as well. -/
def analyze (image : String) (u : Upstreams) : Except PyError AnalyzeResponse :=
  match external_predict image u.predictO with
  | .error e => .error e
  | .ok result =>
    let treatments := external_treatments result.disease u.treatO
    let products := external_products result.disease u.prodO
    let tutorials := external_tutorials result.disease u.tutO
    -- lines 191-200: `try: create_document(...) except Exception: pass`;
    -- every `StoreWriteOutcome` falls through to the same return.
    match u.storeO with
    | .noStore => .ok { result := result, treatments := treatments,
                        products := products, tutorials := tutorials }
    | .writeError => .ok { result := result, treatments := treatments,
                           products := products, tutorials := tutorials }
    | .ok => .ok { result := result, treatments := treatments,
                   products := products, tutorials := tutorials }

/-- One stored analysis document as read back by `recent` (lines
212-217 of `src/main.py`): the three `d.get(...)` projections, `none`
for an absent key or `null`. -/
structure RecentDoc where
  disease : Option String
  confidence : Option ℚ
  severity : Option String
deriving DecidableEq, Repr

/-- Outcome of the store read in `recent`: `db is None`, the
`find/sort/limit/list` pipeline raised, or it returned documents
(already truncated by the store to at most `limit`). -/
inductive StoreReadOutcome where
  | noStore
  | queryError
  | docs (ds : List RecentDoc)
deriving DecidableEq, Repr

/-- The fixed mock of lines 222-227 of `src/main.py`, projected to the
same record shape the success path emits. -/
def mockRecent : List RecentDoc :=
  [ { disease := some "Leaf Blight", confidence := some (87/100),
      severity := some "high" },
    { disease := some "Powdery Mildew", confidence := some (76/100),
      severity := some "medium" },
    { disease := some "Rust", confidence := some (63/100),
      severity := some "medium" },
    { disease := some "Healthy", confidence := some (94/100),
      severity := some "low" } ]

/-- `recent` of `src/main.py` lines 205-227.  `limit` is only forwarded
to the store query (`.limit(limit)`), whose result is the `docs` list of
the outcome; neither fallback path reads it. -/
def recent (limit : Int) (store : StoreReadOutcome) : List RecentDoc :=
  match store with
  | .docs ds => ds.map fun d =>
      { disease := d.disease, confidence := d.confidence,
        severity := d.severity }
  | .queryError => mockRecent
  | .noStore => mockRecent

/-- Every `PredictResponse` that `external_predict` successfully
returns — for any upstream outcome and any payload — has its `severity`
computed from its own `confidence` by the line-81 heuristic. -/
theorem external_predict_ok_severity (image : String) (o : PredictOutcome)
    (r : PredictResponse) (h : external_predict image o = Except.ok r) :
    r.severity = some (severity_of_confidence r.confidence) := by
  cases o with
  | failure =>
      have h' : Except.ok
          { disease := "Leaf Blight", confidence := 87/100,
            organ := some "leaf",
            severity := some (severity_of_confidence (87/100)) }
          = Except.ok r := h
      injection h' with h''
      subst h''
      rfl
  | success p =>
      obtain ⟨d, conf, sev⟩ := p
      obtain _ | v := d
      · have h' : Except.ok
            { disease := "Unknown", confidence := conf.getD (5/10),
              organ := some "leaf",
              severity := some (severity_of_confidence (conf.getD (5/10))) }
            = Except.ok r := h
        injection h' with h''
        subst h''
        rfl
      · obtain s | _ := v
        · have h' : Except.ok
              { disease := s, confidence := conf.getD (5/10),
                organ := some "leaf",
                severity := some (severity_of_confidence (conf.getD (5/10))) }
              = Except.ok r := h
          injection h' with h''
          subst h''
          rfl
        · have h' : (Except.error PyError.validationError
              : Except PyError PredictResponse) = Except.ok r := h
          exact Except.noConfusion h'

/-- `analyze` ignores the storage outcome: all three
`StoreWriteOutcome` branches build the same response. -/
theorem analyze_store_irrelevant (image : String) (u : Upstreams)
    (s : StoreWriteOutcome) :
    analyze image { u with storeO := s } = analyze image u := by
  obtain ⟨p, t, pr, tu, st⟩ := u
  cases hE : external_predict image p <;> cases st <;> cases s <;>
    simp [analyze, hE]

/-- `analyze` raises exactly when `external_predict` raises, forwarding
the same error. -/
theorem analyze_error_iff (image : String) (u : Upstreams) (e : PyError) :
    analyze image u = Except.error e ↔
      external_predict image u.predictO = Except.error e := by
  obtain ⟨p, t, pr, tu, st⟩ := u
  cases hE : external_predict image p <;> cases st <;> simp [analyze, hE]

/-- A successful `analyze` response is the predicted result paired with
the three lookup results keyed on its disease. -/
theorem analyze_ok_eq (image : String) (u : Upstreams) (b : AnalyzeResponse)
    (h : analyze image u = Except.ok b) :
    ∃ r, external_predict image u.predictO = Except.ok r ∧
      b = { result := r,
            treatments := external_treatments r.disease u.treatO,
            products := external_products r.disease u.prodO,
            tutorials := external_tutorials r.disease u.tutO } := by
  obtain ⟨p, t, pr, tu, st⟩ := u
  cases hE : external_predict image p with
  | error e =>
      exfalso
      have h' : (Except.error e : Except PyError AnalyzeResponse)
          = Except.ok b := by
        rw [← h]; simp [analyze, hE]
      exact Except.noConfusion h'
  | ok r =>
      refine ⟨r, rfl, ?_⟩
      have hb : (Except.ok
          { result := r,
            treatments := external_treatments r.disease t,
            products := external_products r.disease pr,
            tutorials := external_tutorials r.disease tu }
          : Except PyError AnalyzeResponse) = Except.ok b := by
        rw [← h]; cases st <;> simp [analyze, hE]
      injection hb with hb'
      exact hb'.symm

/-- C1: the severity attached to every `PredictResponse` that
`external_predict` actually returns is `severity_of_confidence` of the
returned confidence — never read from the upstream payload (whose
ignored `severity` key is arbitrary here) — and for every confidence
`c` that function yields `"high"` iff `c > 0.85`, `"medium"` iff
`0.6 < c ≤ 0.85`, `"low"` iff `c ≤ 0.6`; at the boundaries `c = 0.6`
gives `"low"` and `c = 0.85` gives `"medium"`. -/
theorem C1_severity_pure_thresholds :
    ∀ (image : String) (o : PredictOutcome) (r : PredictResponse) (c : ℚ),
      (external_predict image o = Except.ok r →
        r.severity = some (severity_of_confidence r.confidence))
      ∧ (severity_of_confidence c = "high" ↔ c > 85/100)
      ∧ (severity_of_confidence c = "medium" ↔ 6/10 < c ∧ c ≤ 85/100)
      ∧ (severity_of_confidence c = "low" ↔ c ≤ 6/10)
      ∧ severity_of_confidence (6/10) = "low"
      ∧ severity_of_confidence (85/100) = "medium" := by
  intro image o r c
  refine ⟨external_predict_ok_severity image o r, ?_, ?_, ?_,
    by norm_num [severity_of_confidence],
    by norm_num [severity_of_confidence]⟩
  · unfold severity_of_confidence
    split_ifs with h1 h2
    · exact iff_of_true rfl h1
    · exact iff_of_false (by decide) h1
    · exact iff_of_false (by decide) h1
  · unfold severity_of_confidence
    split_ifs with h1 h2
    · exact iff_of_false (by decide) fun h => absurd h1 (not_lt.mpr h.2)
    · exact iff_of_true rfl ⟨h2, le_of_not_lt h1⟩
    · exact iff_of_false (by decide) fun h => h2 h.1
  · unfold severity_of_confidence
    split_ifs with h1 h2
    · exact iff_of_false (by decide)
        fun hle => absurd h1 (not_lt.mpr (hle.trans (by norm_num)))
    · exact iff_of_false (by decide) (not_le.mpr h2)
    · exact iff_of_true rfl (le_of_not_lt h2)

/-- Witness for C1 at a concrete input: the successful outcome with
absent disease and confidence keys yields the default record, and its
severity is the threshold function of its confidence. -/
theorem C1_severity_pure_thresholds_witness :
    external_predict "ZmFrZQ==" (PredictOutcome.success
        { disease := none, confidence := none, severityField := none })
      = Except.ok
          { disease := "Unknown", confidence := 5/10,
            organ := some "leaf",
            severity := some (severity_of_confidence (5/10)) }
    ∧ ({ disease := "Unknown", confidence := 5/10, organ := some "leaf",
         severity := some (severity_of_confidence (5/10)) }
        : PredictResponse).severity
      = some (severity_of_confidence
          ({ disease := "Unknown", confidence := 5/10, organ := some "leaf",
             severity := some (severity_of_confidence (5/10)) }
            : PredictResponse).confidence) := by
  refine ⟨rfl, ?_⟩
  exact (C1_severity_pure_thresholds "ZmFrZQ=="
    (PredictOutcome.success
      { disease := none, confidence := none, severityField := none })
    { disease := "Unknown", confidence := 5/10, organ := some "leaf",
      severity := some (severity_of_confidence (5/10)) } 0).1 rfl

/-- C2 counterexample: a successful (2xx) upstream response whose
`disease` key holds `null` passes the whole `try` block (lines 70-74 of
`src/main.py`), and `PredictResponse(disease=None, ...)` at line 82 —
outside the `try`, whose `except` ends at line 75 — then raises an
uncaught `ValidationError`.  So `predict` does not "never raise for
any image input", and this upstream outcome does not produce the Leaf
Blight fallback record. -/
theorem C2_counterexample :
    external_predict "ZmFrZQ==" (PredictOutcome.success
        { disease := some PyValue.null, confidence := some (9/10),
          severityField := none })
      = Except.error PyError.validationError :=
  rfl

/-- C2 (amended): whenever the upstream prediction call itself fails —
network error, non-success status, undecodable body, non-numeric
confidence, all raised inside the `try` and caught — `predict` returns
exactly `{disease := "Leaf Blight", confidence := 0.87,
organ := "leaf", severity := "high"}`, and it returns (rather than
raises) on every successful payload whose disease value is text or
absent; but it is not raise-free: a successful payload whose disease
value is `null` raises an uncaught validation error at the
`PredictResponse` construction outside the `try`. -/
theorem C2_amended_predict_failure_fallback :
    ∀ (image s : String) (conf : Option ℚ) (sev : Option String),
      external_predict image PredictOutcome.failure
        = Except.ok
            { disease := "Leaf Blight", confidence := 87/100,
              organ := some "leaf", severity := some "high" }
      ∧ external_predict image (PredictOutcome.success
          { disease := some PyValue.null, confidence := conf,
            severityField := sev })
          = Except.error PyError.validationError
      ∧ external_predict image (PredictOutcome.success
          { disease := some (PyValue.str s), confidence := conf,
            severityField := sev })
          = Except.ok
              { disease := s, confidence := conf.getD (5/10),
                organ := some "leaf",
                severity := some (severity_of_confidence (conf.getD (5/10))) }
      ∧ external_predict image (PredictOutcome.success
          { disease := none, confidence := conf, severityField := sev })
          = Except.ok
              { disease := "Unknown", confidence := conf.getD (5/10),
                organ := some "leaf",
                severity := some (severity_of_confidence (conf.getD (5/10))) } := by
  intro image s conf sev
  have h87 : severity_of_confidence (87/100) = "high" := by
    norm_num [severity_of_confidence]
  exact ⟨by rw [← h87]; rfl, rfl, rfl, rfl⟩

/-- C3 counterexample: a successful treatments response whose body is
the empty list produces an empty result (the `for` loop over `[]` adds
nothing and `return out` returns `[]`), refuting "the result is
non-empty ... including a successful response whose body is an empty
... value". -/
theorem C3_counterexample :
    external_treatments "Leaf Blight" (LookupOutcome.seqResponse []) = [] :=
  rfl

/-- C3 (amended): `lookupTreatments` never raises; on call failure or a
non-sequence response it returns exactly the single fixed generic
leaf-spot fallback record (hence a non-empty result); on a successful
sequence response it returns one mapped record per element, so that
case is empty exactly when the upstream sequence is empty. -/
theorem C3_amended_treatments_fallback :
    ∀ (disease : String) (items : List TreatmentElem),
      external_treatments disease LookupOutcome.failure = [fallbackTreatment]
      ∧ external_treatments disease LookupOutcome.nonSeqResponse
          = [fallbackTreatment]
      ∧ (external_treatments disease (LookupOutcome.seqResponse items)).length
          = items.length := by
  intro d items
  exact ⟨rfl, rfl, by simp [external_treatments]⟩

/-- C4: `lookupProducts` maps a successful empty-sequence response to
the empty sequence, while call failure and non-sequence responses both
yield exactly the two fixed fallback products with their literal
name/price/url/image values; the two results are distinct. -/
theorem C4_products_empty_vs_fallback :
    ∀ disease : String,
      external_products disease (LookupOutcome.seqResponse []) = []
      ∧ external_products disease LookupOutcome.failure = fallbackProducts
      ∧ external_products disease LookupOutcome.nonSeqResponse = fallbackProducts
      ∧ fallbackProducts =
          [ { name := "Bio Neem Oil", price := some (1299/100),
              url := some "https://example.com/neem",
              image := some "https://images.unsplash.com/photo-1524594081293-190a2fe0baae?q=80&w=400" },
            { name := "Copper Fungicide", price := some (1849/100),
              url := some "https://example.com/copper",
              image := some "https://images.unsplash.com/photo-1542291026-7eec264c27ff?q=80&w=400" } ]
      ∧ ([] : List ProductItem) ≠ fallbackProducts := by
  intro d
  exact ⟨rfl, rfl, rfl, rfl, by simp [fallbackProducts]⟩

/-- C5 counterexample: with the products upstream succeeding with an
empty list (all other calls failing, no store), `analyze` returns a
bundle whose `products` sequence is empty, refuting "treatments,
products, and tutorials sequences are each non-empty" for every
combination of upstream outcomes. -/
theorem C5_counterexample :
    analyze "ZmFrZQ=="
      { predictO := PredictOutcome.failure,
        treatO := LookupOutcome.failure,
        prodO := LookupOutcome.seqResponse [],
        tutO := LookupOutcome.failure,
        storeO := StoreWriteOutcome.noStore }
    = Except.ok
      { result :=
          { disease := "Leaf Blight", confidence := 87/100,
            organ := some "leaf",
            severity := some (severity_of_confidence (87/100)) },
        treatments := [fallbackTreatment],
        products := [],
        tutorials := fallbackTutorials "Leaf Blight" } :=
  rfl

/-- C5 (amended): the storage outcome (no store, failed insert,
successful insert) never changes what `analyze` returns; `analyze`
raises exactly when `predict` raises (a successful predict payload with
a `null` disease value — the uncaught validation error propagates
through line 185), forwarding that error; and every bundle it does
return has `result.severity` equal to the threshold function of
`result.confidence` and sequences of length 1 (treatments) or 2
(products, tutorials) on call failure or non-sequence response and of
the upstream sequence's length on a successful sequence response — so
each is non-empty except when its upstream call succeeds with an empty
sequence. -/
theorem C5_amended_analyze_bundle :
    ∀ (image : String) (u : Upstreams) (s : StoreWriteOutcome)
      (b : AnalyzeResponse) (e : PyError),
      analyze image { u with storeO := s } = analyze image u
      ∧ (analyze image u = Except.error e ↔
          external_predict image u.predictO = Except.error e)
      ∧ (analyze image u = Except.ok b →
          b.result.severity
            = some (severity_of_confidence b.result.confidence)
          ∧ b.treatments.length
              = (match u.treatO with
                 | .seqResponse items => items.length
                 | _ => 1)
          ∧ b.products.length
              = (match u.prodO with
                 | .seqResponse items => items.length
                 | _ => 2)
          ∧ b.tutorials.length
              = (match u.tutO with
                 | .seqResponse items => items.length
                 | _ => 2)) := by
  intro image u s b e
  refine ⟨analyze_store_irrelevant image u s,
    analyze_error_iff image u e, ?_⟩
  intro h
  obtain ⟨r, hr, hb⟩ := analyze_ok_eq image u b h
  subst hb
  refine ⟨external_predict_ok_severity image u.predictO r hr, ?_, ?_, ?_⟩
  · cases u.treatO <;> simp [external_treatments]
  · cases u.prodO <;> simp [external_products, fallbackProducts]
  · cases u.tutO <;> simp [external_tutorials, fallbackTutorials]

/-- Witness for C5 at a concrete input: a successful default predict
payload, all three lookups failing, a successful store insert. -/
theorem C5_amended_analyze_bundle_witness :
    ({ result :=
         { disease := "Unknown", confidence := 5/10,
           organ := some "leaf",
           severity := some (severity_of_confidence (5/10)) },
       treatments := [fallbackTreatment], products := fallbackProducts,
       tutorials := fallbackTutorials "Unknown" }
      : AnalyzeResponse).result.severity
        = some (severity_of_confidence (5/10))
    ∧ [fallbackTreatment].length = 1
    ∧ fallbackProducts.length = 2
    ∧ (fallbackTutorials "Unknown").length = 2 := by
  exact (C5_amended_analyze_bundle "ZmFrZQ=="
    { predictO := PredictOutcome.success
        { disease := none, confidence := none, severityField := none },
      treatO := LookupOutcome.failure, prodO := LookupOutcome.failure,
      tutO := LookupOutcome.failure, storeO := StoreWriteOutcome.ok }
    StoreWriteOutcome.noStore
    { result :=
        { disease := "Unknown", confidence := 5/10,
          organ := some "leaf",
          severity := some (severity_of_confidence (5/10)) },
      treatments := [fallbackTreatment], products := fallbackProducts,
      tutorials := fallbackTutorials "Unknown" }
    PyError.validationError).2.2 rfl

/-- C6 counterexample: an element whose `prevention` key is present and
non-null but holds the empty string — a falsy value — is mapped with
`preventive`'s value instead of its own `prevention` value, because the
source uses Python `or` (truthiness), not first-non-null. -/
theorem C6_counterexample :
    (external_treatments "Rust" (LookupOutcome.seqResponse
        [{ symptoms := none, organic := none, chemical := none,
           prevention := some "", preventive := some "Keep foliage dry" }])).map
        TreatmentItem.prevention = [some "Keep foliage dry"]
    ∧ (some "" : Option String) ≠ some "Keep foliage dry" :=
  ⟨rfl, by decide⟩

/-- C6 (amended): on a successful sequence response each element is
mapped, and the `prevention` field equals the element's `prevention`
value when that value is truthy (present, non-null, non-empty text);
when it is absent, null, or the empty string, the `preventive` value is
used instead — Python `or`: first truthy, not first non-null, wins. -/
theorem C6_amended_prevention_truthiness :
    ∀ (disease : String) (items : List TreatmentElem) (it : TreatmentElem),
      external_treatments disease (LookupOutcome.seqResponse items)
        = items.map treatmentOfElem
      ∧ (treatmentOfElem it).prevention
          = (if it.prevention = none ∨ it.prevention = some ""
             then it.preventive else it.prevention) := by
  intro d items it
  refine ⟨rfl, ?_⟩
  obtain ⟨s, o, c, p, pv⟩ := it
  cases p with
  | none => simp [treatmentOfElem, pyOr]
  | some s' =>
      by_cases h : s' = "" <;> simp [treatmentOfElem, pyOr, h]

/-- C7 counterexample: the two fallback tutorials carry two different
video ids (`dQw4w9WgXcQ` and `9bZkp7q19f0`), refuting "the same videoId
appears in both records". -/
theorem C7_counterexample :
    (external_tutorials "Rust" LookupOutcome.failure).map TutorialItem.videoId
      = [some "dQw4w9WgXcQ", some "9bZkp7q19f0"]
    ∧ (some "dQw4w9WgXcQ" : Option String) ≠ some "9bZkp7q19f0" :=
  ⟨rfl, by decide⟩

/-- C7 (amended): on call failure or non-sequence response,
`lookupTutorials` returns exactly two fallback tutorials whose titles
are templated with the disease name and whose other fields are literal
constants — two distinct fixed demo video ids, each with its matching
thumbnail and watch url (not one shared id). -/
theorem C7_amended_tutorial_fallback :
    ∀ disease : String,
      external_tutorials disease LookupOutcome.failure
        = fallbackTutorials disease
      ∧ external_tutorials disease LookupOutcome.nonSeqResponse
          = fallbackTutorials disease
      ∧ fallbackTutorials disease =
          [ { title := "How to treat " ++ disease,
              videoId := some "dQw4w9WgXcQ",
              thumbnail := some "https://img.youtube.com/vi/dQw4w9WgXcQ/hqdefault.jpg",
              url := some "https://www.youtube.com/watch?v=dQw4w9WgXcQ" },
            { title := "Preventing " ++ disease ++ " in your garden",
              videoId := some "9bZkp7q19f0",
              thumbnail := some "https://img.youtube.com/vi/9bZkp7q19f0/hqdefault.jpg",
              url := some "https://www.youtube.com/watch?v=9bZkp7q19f0" } ]
      ∧ (fallbackTutorials disease).length = 2 := by
  intro d
  exact ⟨rfl, rfl, rfl, rfl⟩

/-- C8: for every integer `limit`, `recent` with no store configured,
and likewise on any store error, returns exactly the fixed four-element
mock sequence of `{disease, confidence, severity}` records, independent
of `limit`. -/
theorem C8_recent_mock_independent_of_limit :
    ∀ limit : Int,
      recent limit StoreReadOutcome.noStore = mockRecent
      ∧ recent limit StoreReadOutcome.queryError = mockRecent
      ∧ mockRecent =
          [ { disease := some "Leaf Blight", confidence := some (87/100),
              severity := some "high" },
            { disease := some "Powdery Mildew", confidence := some (76/100),
              severity := some "medium" },
            { disease := some "Rust", confidence := some (63/100),
              severity := some "medium" },
            { disease := some "Healthy", confidence := some (94/100),
              severity := some "low" } ]
      ∧ mockRecent.length = 4 := by
  intro l
  exact ⟨rfl, rfl, rfl, rfl⟩

/-- C9 counterexample: an upstream product element with a numeric price
of `-5` is passed through unvalidated, producing a `ProductItem` whose
price is the negative number `-5` — refuting "price is either null or a
non-negative real number". -/
theorem C9_counterexample :
    external_products "Rust" (LookupOutcome.seqResponse
        [{ name := some "Bargain Fungicide", price := PriceField.numeric (-5),
           url := none, image := none }])
      = [{ name := "Bargain Fungicide", price := some (-5), url := none,
           image := none }]
    ∧ (-5 : ℚ) < 0 :=
  ⟨rfl, by norm_num⟩

/-- C9 (amended): the fallback products carry the non-negative literal
prices 12.99 and 18.49; a product mapped from a successful sequence
response has a null price when the upstream price is absent, null, or
non-numeric, and otherwise carries the upstream numeric value
unvalidated — which may be negative. -/
theorem C9_amended_price_passthrough :
    ∀ (disease : String) (items : List ProductElem) (q : ℚ),
      fallbackProducts.map ProductItem.price
        = [some (1299/100), some (1849/100)]
      ∧ (0 : ℚ) ≤ 1299/100
      ∧ (0 : ℚ) ≤ 1849/100
      ∧ external_products disease (LookupOutcome.seqResponse items)
          = items.map productOfElem
      ∧ parsePrice (PriceField.numeric q) = some q
      ∧ parsePrice PriceField.absent = none
      ∧ parsePrice PriceField.nonNumeric = none := by
  intro d items q
  exact ⟨rfl, by norm_num, by norm_num, rfl, rfl, rfl, rfl⟩

/-- C10: `lookupTutorials` preserves a successful empty-sequence
response as an empty result (like `lookupProducts`), while call failure
and non-sequence responses get the two-item fallback. -/
theorem C10_tutorials_empty_preserved :
    ∀ disease : String,
      external_tutorials disease (LookupOutcome.seqResponse []) = []
      ∧ (external_tutorials disease LookupOutcome.failure).length = 2
      ∧ (external_tutorials disease LookupOutcome.nonSeqResponse).length = 2 := by
  intro d
  exact ⟨rfl, rfl, rfl⟩
